import Mathlib

/-!
Verification development for the exif-dashboard photo-metadata pipeline.

The development shallowly embeds the two Python modules of the repository:

* `exif_analyzer.py` — the Extractor (`ExifAnalyzer`): directory scan,
  per-file EXIF extraction, and the tag-value parsers
  (`_parse_rational`, `_parse_shutter_speed`, `_parse_datetime`,
  `_parse_gps`, `_convert_to_degrees`).
* `data_processor.py` — the Aggregator (`DataProcessor`): the derived
  time columns and the report methods.

Modelling conventions:

* Python floats are modelled as exact rationals (`ℚ`); `round(x, 1)`,
  `round(x)` and the `":.1f"` format specifier are modelled by exact
  round-half-to-even on the rational value (`roundHalfEven`, `round1`,
  `fmt1f`), and `int(x)` by truncation toward zero (`pyTrunc`), which is
  what CPython performs on the underlying value.
* Dynamically typed EXIF tag values are modelled by the inductive
  `TagVal`; a scalar (non-tuple, non-mapping) Python value is
  characterised by the observations the source code makes of it:
  its `str()` rendering, its `float()` cast (`none` when the cast
  raises), its `int()` cast (`none` when the cast raises), and the
  low bit of `value & 1` (`none` when `&` raises).
* A value of a dataframe column cell is a `Cell`: `absent` when the
  record dictionary lacks the key, `null` when the key is present but
  maps to Python `None` (which several parsers can return), and
  `val a` otherwise.  Pandas turns both `absent` and `null` into NaN,
  but only `absent` for every record makes the whole column absent.
* Fallible Python code (a raised exception swallowed by a caller)
  is modelled with `Option`.
-/

namespace ExifDash

/-! ## Python numeric primitives -/

/-- Round a rational to the nearest integer, ties to the even integer:
the behaviour of CPython `round(x)` on the exact value. -/
def roundHalfEven (q : ℚ) : ℤ :=
  if q - ⌊q⌋ < 1/2 then ⌊q⌋
  else if 1/2 < q - ⌊q⌋ then ⌊q⌋ + 1
  else if ⌊q⌋ % 2 = 0 then ⌊q⌋ else ⌊q⌋ + 1

/-- CPython `round(x, 1)` on the exact value: round to one decimal digit,
ties to even. -/
def round1 (q : ℚ) : ℚ := (roundHalfEven (q * 10) : ℚ) / 10

/-- CPython `int(x)` on a real value: truncation toward zero. -/
def pyTrunc (q : ℚ) : ℤ := if 0 ≤ q then ⌊q⌋ else ⌈q⌉

/-- CPython `"{x:.1f}"` formatting on the exact value: one decimal digit,
ties to even. -/
def fmt1f (q : ℚ) : String :=
  (if roundHalfEven (q * 10) < 0 then "-" else "") ++
    toString ((roundHalfEven (q * 10)).natAbs / 10) ++ "." ++
    toString ((roundHalfEven (q * 10)).natAbs % 10)

/-! ## EXIF tag values -/

/-- One entry value inside a `GPSInfo` nested tag mapping.  A coordinate
axis is a (degrees, minutes, seconds) triple of rationals; a hemisphere
reference is a string; `other` stands for any value on which the
three-way unpacking `d, m, s = value` raises. -/
inductive GpsVal where
  | triple (d m s : ℚ)
  | str (s : String)
  | other
deriving DecidableEq, Repr

/-- A raw EXIF tag value as observed by the extractor.

`pair n d` is a two-element tuple of integers (the EXIF rational
encoding).  `scalar s f i b` is any non-tuple, non-mapping value,
characterised by the observations the source makes of it: `s` is its
`str()` rendering, `f` its `float()` cast (`none` when that raises),
`i` its `int()` cast (`none` when that raises), and `b` the value of
`bool(value & 1)` (`none` when `&` raises, i.e. the value is not an
integer).  `gpsMap m` is a nested tag mapping as carried by `GPSInfo`,
already resolved to GPS tag names. -/
inductive TagVal where
  | pair (n d : ℤ)
  | scalar (s : String) (f : Option ℚ) (i : Option ℤ) (b : Option Bool)
  | gpsMap (m : List (String × GpsVal))
deriving DecidableEq, Repr

/-- The `str()` rendering of a tag value.  For a scalar this is the
recorded observation; the renderings of tuples and mappings are fixed
plausible stand-ins (the source only ever applies `str` to scalars on
the paths the claims exercise). -/
def TagVal.pyStr : TagVal → String
  | .pair n d => "(" ++ toString n ++ ", " ++ toString d ++ ")"
  | .scalar s _ _ _ => s
  | .gpsMap _ => "<gps-ifd>"

/-- The `float()` cast of a tag value; `none` models a raised
`TypeError`/`ValueError`. -/
def TagVal.pyFloat : TagVal → Option ℚ
  | .pair _ _ => none
  | .scalar _ f _ _ => f
  | .gpsMap _ => none

/-- The `int()` cast of a tag value; `none` models a raised exception. -/
def TagVal.pyInt : TagVal → Option ℤ
  | .pair _ _ => none
  | .scalar _ _ i _ => i
  | .gpsMap _ => none

/-- The observation `bool(value & 1)`; `none` models a raised
`TypeError` (`&` on a non-integer). -/
def TagVal.pyAnd1 : TagVal → Option Bool
  | .pair _ _ => none
  | .scalar _ _ _ b => b
  | .gpsMap _ => none

/-! ## Tag parsers (`ExifAnalyzer._parse_*`) -/

/-- Embeds `ExifAnalyzer._parse_rational`: a two-int tuple is divided and
rounded to one decimal (division by zero raises and is swallowed to
`None`); any other value is cast directly to `float`, with a raised
cast swallowed to `None`. -/
def parse_rational : TagVal → Option ℚ
  | .pair n d => if d = 0 then none else some (round1 ((n : ℚ) / (d : ℚ)))
  | v => v.pyFloat

/-- Embeds `ExifAnalyzer._parse_shutter_speed`.  On a two-int tuple:
when `numerator >= denominator` the quotient is formatted `"{q:.1f}s"`,
otherwise the result is `"1/{int(denominator/numerator)}"`; a zero
divisor raises and is swallowed to `None`.  A non-tuple value is
rendered with `str`. -/
def parse_shutter_speed : TagVal → Option String
  | .pair n d =>
      if n ≥ d then
        if d = 0 then none
        else some (fmt1f ((n : ℚ) / (d : ℚ)) ++ "s")
      else
        if n = 0 then none
        else some ("1/" ++ toString (pyTrunc ((d : ℚ) / (n : ℚ))))
  | v => some v.pyStr

/-! ## Datetimes

The `datetime` value produced by `strptime` is modelled as a plain
calendar structure; ordering, day differences and weekday names are
derived through a day count since the Unix epoch (a standard civil
calendar computation, standing in for the datetime library). -/

/-- A parsed EXIF timestamp. -/
structure DateTime where
  year : ℕ
  month : ℕ
  day : ℕ
  hour : ℕ
  minute : ℕ
  second : ℕ
deriving DecidableEq, Repr

/-- The number of days from 1970-01-01 to the civil date `y-m-d`
(Gregorian, proleptic). -/
def daysFromCivil (y m d : ℤ) : ℤ :=
  let y2 := if m ≤ 2 then y - 1 else y
  let m2 := if m ≤ 2 then m + 9 else m - 3
  let era := Int.fdiv y2 400
  let yoe := y2 - era * 400
  let doy := Int.fdiv (153 * m2 + 2) 5 + d - 1
  let doe := yoe * 365 + Int.fdiv yoe 4 - Int.fdiv yoe 100 + doy
  era * 146097 + doe - 719468

/-- Full English weekday names, Monday first: the reindexing order used
by `get_day_of_week_distribution` and the name table behind the
dataframe's `day_name()`. -/
def day_order : List String :=
  ["Monday", "Tuesday", "Wednesday", "Thursday", "Friday", "Saturday", "Sunday"]

/-- Day count since the epoch for a timestamp. -/
def DateTime.epochDays (t : DateTime) : ℤ :=
  daysFromCivil (t.year : ℤ) (t.month : ℤ) (t.day : ℤ)

/-- Seconds since the epoch: the total order on timestamps. -/
def DateTime.toSecs (t : DateTime) : ℤ :=
  t.epochDays * 86400 + (t.hour : ℤ) * 3600 + (t.minute : ℤ) * 60 + (t.second : ℤ)

/-- The full English weekday name of a timestamp (1970-01-01 was a
Thursday). -/
def DateTime.dayName (t : DateTime) : String :=
  day_order.getD ((t.epochDays + 3).emod 7).toNat ""

/-- Gregorian leap-year rule. -/
def isLeap (y : ℕ) : Bool := (y % 4 == 0 && y % 100 != 0) || y % 400 == 0

/-- Number of days of month `m` in year `y`. -/
def daysInMonth (y m : ℕ) : ℕ :=
  if m = 2 then (if isLeap y then 29 else 28)
  else if m = 4 ∨ m = 6 ∨ m = 9 ∨ m = 11 then 30
  else 31

/-- Embeds `ExifAnalyzer._parse_datetime`: `strptime` with the fixed
pattern `"%Y:%m:%d %H:%M:%S"`, yielding `none` on any mismatch or
out-of-range component (the swallowed `ValueError`). -/
def parse_datetime (s : String) : Option DateTime :=
  match s.splitOn " " with
  | [dpart, tpart] =>
    match dpart.splitOn ":", tpart.splitOn ":" with
    | [ys, ms, ds], [hs, ns, ss] =>
      match ys.toNat?, ms.toNat?, ds.toNat?, hs.toNat?, ns.toNat?, ss.toNat? with
      | some y, some mo, some da, some ho, some mi, some se =>
        if 1 ≤ y ∧ y ≤ 9999 ∧ 1 ≤ mo ∧ mo ≤ 12 ∧ 1 ≤ da ∧ da ≤ daysInMonth y mo ∧
            ho ≤ 23 ∧ mi ≤ 59 ∧ se ≤ 59 then
          some ⟨y, mo, da, ho, mi, se⟩
        else none
      | _, _, _, _, _, _ => none
    | _, _ => none
  | _ => none

/-! ## GPS parsing -/

/-- Embeds `ExifAnalyzer._convert_to_degrees`: a (degrees, minutes,
seconds) triple becomes decimal degrees; `none` models the exception
raised when the value does not unpack into three components. -/
def convert_to_degrees : GpsVal → Option ℚ
  | .triple d m s => some (d + m / 60 + s / 3600)
  | _ => none

/-- Key membership in a Python dictionary modelled as an entry list. -/
def dictContains (m : List (String × GpsVal)) (k : String) : Bool :=
  m.any (fun p => p.1 == k)

/-- Dictionary lookup with last-write-wins semantics (a later entry for
the same key overwrites an earlier one). -/
def dictGet (m : List (String × GpsVal)) (k : String) : Option GpsVal :=
  m.reverse.lookup k

/-- Embeds `ExifAnalyzer._parse_gps`: the nested `GPSInfo` mapping is
resolved to GPS tag names; when both `GPSLatitude` and `GPSLongitude`
are present their triples are converted to decimal degrees, the
latitude is negated under a `"S"` reference and the longitude under a
`"W"` reference, and both coordinates are returned together.  Any
missing coordinate key, conversion failure, or non-mapping argument
yields `none` (the function's swallowed exception / fall-through
`return None`). -/
def parse_gps : TagVal → Option (ℚ × ℚ)
  | .gpsMap m =>
    if dictContains m "GPSLatitude" && dictContains m "GPSLongitude" then
      match (dictGet m "GPSLatitude").bind convert_to_degrees,
            (dictGet m "GPSLongitude").bind convert_to_degrees with
      | some lat, some lon =>
          some (if dictGet m "GPSLatitudeRef" = some (.str "S") then -lat else lat,
                if dictGet m "GPSLongitudeRef" = some (.str "W") then -lon else lon)
      | _, _ => none
    else none
  | _ => none

/-! ## Photo records -/

/-- One dataframe cell position of a record: the record dictionary can
lack the key (`absent`), carry Python `None` (`null`, which several
parsers can produce), or carry a value. -/
inductive Cell (α : Type) where
  | absent
  | null
  | val (a : α)
deriving DecidableEq, Repr

variable {α : Type}

/-- Store a fallible parser result in a record: the source assigns the
parser's return value to the key, so a `None` result is stored as a
present-but-null cell. -/
def Cell.ofOption : Option α → Cell α
  | some a => .val a
  | none => .null

/-- The non-null value of a cell, when any. -/
def Cell.toOption : Cell α → Option α
  | .val a => some a
  | _ => none

/-- Whether the record dictionary has the key at all (this is what makes
the dataframe column exist). -/
def Cell.isPresent : Cell α → Bool
  | .absent => false
  | _ => true

/-- One per successfully parsed image: the dictionary built by
`ExifAnalyzer.extract_exif`.  `filename`, `filepath`, `file_size`,
`width`, `height` and `orientation` are always set; the remaining
fields come from recognized EXIF tags. -/
structure PhotoRecord where
  filename : String
  filepath : String
  file_size : ℚ
  camera_make : Option String := none
  camera_model : Option String := none
  lens : Option String := none
  focal_length : Cell ℚ := .absent
  aperture : Cell ℚ := .absent
  shutter_speed : Cell String := .absent
  iso : Option ℤ := none
  datetime : Cell DateTime := .absent
  flash_used : Option Bool := none
  latitude : Option ℚ := none
  longitude : Option ℚ := none
  width : ℕ := 0
  height : ℕ := 0
  orientation : String := ""
deriving DecidableEq, Repr

/-! ## The Extractor (`ExifAnalyzer`) -/

/-- An image file on disk, characterised by the observations the
extractor makes of it: its names, suffix, byte size, whether
opening/decoding succeeds, its EXIF tag mapping (`none` when the
library returns no mapping), and its pixel dimensions.  Tag entries are
already resolved to human-readable tag names (the library's tag-name
table is a black box); unrecognized names fall through the dispatch. -/
structure ImageFile where
  name : String
  path : String
  suffix : String
  sizeBytes : ℕ
  openOk : Bool
  tags : Option (List (String × TagVal))
  width : ℕ
  height : ℕ

/-- One iteration of the tag dispatch loop in
`ExifAnalyzer.extract_exif`: update the record being built according to
the resolved tag name.  `none` models an uncaught per-tag exception
(the `int(value)` cast for ISO or `value & 1` for Flash), which aborts
the whole record; the rational, shutter-speed, datetime and GPS parsers
swallow their own errors instead. -/
def applyTag (acc : PhotoRecord) (entry : String × TagVal) : Option PhotoRecord :=
  if entry.1 = "Make" then some { acc with camera_make := some entry.2.pyStr.trim }
  else if entry.1 = "Model" then some { acc with camera_model := some entry.2.pyStr.trim }
  else if entry.1 = "LensModel" then some { acc with lens := some entry.2.pyStr.trim }
  else if entry.1 = "FocalLength" then
    some { acc with focal_length := Cell.ofOption (parse_rational entry.2) }
  else if entry.1 = "FNumber" then
    some { acc with aperture := Cell.ofOption (parse_rational entry.2) }
  else if entry.1 = "ExposureTime" then
    some { acc with shutter_speed := Cell.ofOption (parse_shutter_speed entry.2) }
  else if entry.1 = "ISOSpeedRatings" then
    match entry.2.pyInt with
    | some i => some { acc with iso := some i }
    | none => none
  else if entry.1 = "DateTime" ∨ entry.1 = "DateTimeOriginal" then
    some { acc with datetime := Cell.ofOption (parse_datetime entry.2.pyStr) }
  else if entry.1 = "Flash" then
    match entry.2.pyAnd1 with
    | some b => some { acc with flash_used := some b }
    | none => none
  else if entry.1 = "GPSInfo" then
    match parse_gps entry.2 with
    | some c => some { acc with latitude := some c.1, longitude := some c.2 }
    | none => some acc
  else some acc

/-- Embeds `ExifAnalyzer.extract_exif`: open the image, fetch its tag
mapping, return `None` when the file cannot be decoded or has no
metadata, otherwise fold the tag dispatch over every entry and finish
the record with the image dimensions and orientation.  Any exception
escaping the loop is swallowed into `none` (the per-file `except`). -/
def extract_exif (f : ImageFile) : Option PhotoRecord :=
  if f.openOk then
    f.tags.bind (fun entries =>
      if entries.isEmpty then none
      else
        (entries.foldlM applyTag
          { filename := f.name, filepath := f.path,
            file_size := (f.sizeBytes : ℚ) / (1024 * 1024) }).map
          (fun r =>
            { r with width := f.width, height := f.height,
                     orientation :=
                       if f.height > f.width then "portrait" else "landscape" }))
  else none

/-- The supported image suffixes (`ExifAnalyzer.SUPPORTED_FORMATS`). -/
def SUPPORTED_FORMATS : List String := [".jpg", ".jpeg", ".png", ".tiff", ".tif"]

/-- Python `str.lower()` applied to a file suffix (character-wise
lowercasing). -/
def strLower (s : String) : String := String.mk (s.data.map Char.toLower)

/-- A scan target: whether the path exists, its printable form, and the
files produced by recursive (`rglob`) and non-recursive (`glob`)
enumeration. -/
structure Folder where
  present : Bool
  pathStr : String
  rglobFiles : List ImageFile
  globFiles : List ImageFile

/-- The mutable state of an `ExifAnalyzer` instance. -/
structure AnalyzerState where
  photos_data : List PhotoRecord

/-- Embeds `ExifAnalyzer.scan_folder`: raise when the folder does not
exist; otherwise enumerate files (recursively or not), keep those with
a supported suffix, extract each, and store and return exactly the
non-absent extraction results of this call. -/
def scan_folder (st : AnalyzerState) (folder : Folder) (recursive : Bool) :
    Except String (AnalyzerState × List PhotoRecord) :=
  if folder.present then
    Except.ok
      (let image_files := (if recursive then folder.rglobFiles else folder.globFiles).filter
        (fun f => SUPPORTED_FORMATS.contains (strLower f.suffix))
      let photos := image_files.filterMap extract_exif
      ({ photos_data := photos }, photos))
  else Except.error ("Folder not found: " ++ folder.pathStr)

/-! ## The Aggregator (`DataProcessor`)

The dataframe built from the record list is the list itself; a column
exists exactly when at least one record dictionary carries the key
(`Option.isSome` / `Cell.isPresent`).  `value_counts`(+`reindex` /
`sort_index`) and the grouping engine are reproduced explicitly:
`value_counts` counts each distinct non-null value (first-occurrence
enumeration, then a stable sort), `reindex` maps over the fixed label
list filling missing labels with 0. -/

/-- Distinct values of a list, first occurrences in order, each paired
with its number of occurrences: the unsorted content of a pandas
`value_counts`. -/
def valueCounts [DecidableEq α] (vals : List α) : List (α × ℕ) :=
  vals.dedup.map (fun v => (v, vals.count v))

/-- Minimum of a list, `none` when empty (pandas `min` over the
non-null values of a column). -/
def listMin [LinearOrder α] (l : List α) : Option α :=
  l.foldl (fun a x => match a with | none => some x | some y => some (min y x)) none

/-- Maximum of a list, `none` when empty. -/
def listMax [LinearOrder α] (l : List α) : Option α :=
  l.foldl (fun a x => match a with | none => some x | some y => some (max y x)) none

/-- Embeds `DataProcessor._categorize_time_of_day`: total over integer
hours, `"Unknown"` for a missing hour (the `pd.isna` branch). -/
def categorize_time_of_day : Option ℤ → String
  | none => "Unknown"
  | some hour =>
    if 5 ≤ hour ∧ hour < 8 then "Early Morning"
    else if 8 ≤ hour ∧ hour < 12 then "Morning"
    else if 12 ≤ hour ∧ hour < 17 then "Afternoon"
    else if 17 ≤ hour ∧ hour < 20 then "Golden Hour"
    else if 20 ≤ hour ∧ hour < 23 then "Evening"
    else "Night"

/-- The derived `hour` column value of one record: the hour of its
datetime, NaN (here `none`) when the datetime is null or the key is
absent. -/
def hourOf (r : PhotoRecord) : Option ℤ :=
  r.datetime.toOption.map (fun t => (t.hour : ℤ))

/-- The derived `time_of_day` column value of one record. -/
def timeOfDayOf (r : PhotoRecord) : String :=
  categorize_time_of_day (hourOf r)

/-- The derived `day_of_week` column value of one record, `none` for a
NaT datetime. -/
def dayOfWeekOf (r : PhotoRecord) : Option String :=
  r.datetime.toOption.map DateTime.dayName

/-- Whether the dataframe has the datetime-derived columns: the
`datetime` key is present in at least one record. -/
def hasDateCol (rs : List PhotoRecord) : Bool :=
  rs.any (fun r => r.datetime.isPresent)

/-- The fixed category order of `get_time_of_day_distribution`. -/
def time_order : List String :=
  ["Early Morning", "Morning", "Afternoon", "Golden Hour", "Evening", "Night"]

/-- Embeds `DataProcessor.get_camera_usage`: empty when the
`camera_model` column is absent, otherwise one row per distinct model
with its count and `count / len(df) * 100` rounded to one decimal,
rows in descending count order (stable on ties). -/
def get_camera_usage (rs : List PhotoRecord) : List (String × ℕ × ℚ) :=
  if rs.any (fun r => r.camera_model.isSome) then
    (List.insertionSort (fun a b : String × ℕ => b.2 ≤ a.2)
        (valueCounts (rs.filterMap (fun r => r.camera_model)))).map
      (fun p => (p.1, p.2, round1 ((p.2 : ℚ) / (rs.length : ℚ) * 100)))
  else []

/-- Embeds `DataProcessor.get_lens_usage` (same shape as camera
usage, over the `lens` column). -/
def get_lens_usage (rs : List PhotoRecord) : List (String × ℕ × ℚ) :=
  if rs.any (fun r => r.lens.isSome) then
    (List.insertionSort (fun a b : String × ℕ => b.2 ≤ a.2)
        (valueCounts (rs.filterMap (fun r => r.lens)))).map
      (fun p => (p.1, p.2, round1 ((p.2 : ℚ) / (rs.length : ℚ) * 100)))
  else []

/-- Embeds `DataProcessor.get_iso_distribution`: counts of each ISO
value, rows in ascending ISO order (`sort_index`). -/
def get_iso_distribution (rs : List PhotoRecord) : List (ℤ × ℕ) :=
  if rs.any (fun r => r.iso.isSome) then
    List.insertionSort (fun a b : ℤ × ℕ => a.1 ≤ b.1)
      (valueCounts (rs.filterMap (fun r => r.iso)))
  else []

/-- Embeds `DataProcessor.get_aperture_distribution`. -/
def get_aperture_distribution (rs : List PhotoRecord) : List (ℚ × ℕ) :=
  if rs.any (fun r => r.aperture.isPresent) then
    List.insertionSort (fun a b : ℚ × ℕ => a.1 ≤ b.1)
      (valueCounts (rs.filterMap (fun r => r.aperture.toOption)))
  else []

/-- Embeds `DataProcessor.get_focal_length_distribution`. -/
def get_focal_length_distribution (rs : List PhotoRecord) : List (ℚ × ℕ) :=
  if rs.any (fun r => r.focal_length.isPresent) then
    List.insertionSort (fun a b : ℚ × ℕ => a.1 ≤ b.1)
      (valueCounts (rs.filterMap (fun r => r.focal_length.toOption)))
  else []

/-- The caller-selected granularity of `get_shooting_timeline`. -/
inductive Freq where
  | D
  | W
  | M
  | Y
deriving DecidableEq, Repr

/-- The calendar bucket a timestamp falls into, as an integer key
ordered chronologically: its epoch day (`D`), the epoch day of the
Sunday ending its week (`W`, the weekly anchor of the time-bucketing
engine), its month index (`M`) or its year (`Y`). -/
def bucketKey (f : Freq) (t : DateTime) : ℤ :=
  match f with
  | .D => t.epochDays
  | .W => t.epochDays + (6 - (t.epochDays + 3).emod 7)
  | .M => (t.year : ℤ) * 12 + (t.month : ℤ) - 1
  | .Y => (t.year : ℤ)

/-- Embeds `DataProcessor.get_shooting_timeline`: empty when the `date`
column is absent; otherwise the continuous run of calendar buckets from
the earliest to the latest datetime, each with its photo count (gap
buckets included with count 0, as the time-bucketing engine produces
them). -/
def get_shooting_timeline (rs : List PhotoRecord) (freq : Freq) : List (ℤ × ℕ) :=
  if hasDateCol rs then
    match rs.filterMap (fun r => r.datetime.toOption) with
    | [] => []
    | d :: ds =>
      let keys := (d :: ds).map (bucketKey freq)
      let lo := keys.foldl min (bucketKey freq d)
      let hi := keys.foldl max (bucketKey freq d)
      (List.range (hi - lo + 1).toNat).map (fun i => ((lo + i : ℤ), keys.count (lo + i)))
  else []

/-- Embeds `DataProcessor.get_time_of_day_distribution`: the
`time_of_day` counts reindexed onto the fixed six-label order, missing
labels filled with 0. -/
def get_time_of_day_distribution (rs : List PhotoRecord) : List (String × ℕ) :=
  if hasDateCol rs then
    time_order.map (fun c => (c, (rs.filter (fun r => timeOfDayOf r == c)).length))
  else []

/-- Embeds `DataProcessor.get_day_of_week_distribution`: weekday counts
reindexed onto Monday..Sunday, missing days filled with 0. -/
def get_day_of_week_distribution (rs : List PhotoRecord) : List (String × ℕ) :=
  if hasDateCol rs then
    day_order.map (fun c => (c, (rs.filter (fun r => dayOfWeekOf r == some c)).length))
  else []

/-- Embeds `DataProcessor.get_orientation_stats`: the portrait and
landscape counts; the `orientation` column exists exactly when the
record list is non-empty, since the extractor always sets the key. -/
def get_orientation_stats (rs : List PhotoRecord) : List (String × ℕ) :=
  if rs.isEmpty then []
  else
    [("portrait", (rs.filter (fun r => r.orientation == "portrait")).length),
     ("landscape", (rs.filter (fun r => r.orientation == "landscape")).length)]

/-- Embeds `DataProcessor.get_flash_usage_stats`. -/
def get_flash_usage_stats (rs : List PhotoRecord) : List (String × ℕ) :=
  if rs.any (fun r => r.flash_used.isSome) then
    [("used", (rs.filter (fun r => r.flash_used == some true)).length),
     ("not_used", (rs.filter (fun r => r.flash_used == some false)).length)]
  else []

/-- Embeds `DataProcessor.get_gps_photos`: empty when latitude or
longitude columns are absent; otherwise the four-column projection with
NaN rows dropped.  `none` models the `KeyError` raised by the column
selection when the `date` column is missing while the coordinate
columns exist. -/
def get_gps_photos (rs : List PhotoRecord) :
    Option (List (String × ℚ × ℚ × DateTime)) :=
  if rs.any (fun r => r.latitude.isSome) && rs.any (fun r => r.longitude.isSome) then
    if hasDateCol rs then
      some (rs.filterMap (fun r =>
        match r.latitude, r.longitude, r.datetime.toOption with
        | some la, some lo, some t => some (r.filename, la, lo, t)
        | _, _, _ => none))
    else none
  else some []

/-- A value inside the summary-report dictionary. -/
inductive SVal where
  | int (n : ℤ)
  | rat (q : ℚ)
  | dt (t : DateTime)
  | nullv
  | dict (entries : List (String × SVal))

/-- Minimum of a list of timestamps by instant. -/
def minDT (ds : List DateTime) : Option DateTime :=
  ds.foldl (fun a t => match a with
    | none => some t
    | some u => some (if t.toSecs < u.toSecs then t else u)) none

/-- Maximum of a list of timestamps by instant. -/
def maxDT (ds : List DateTime) : Option DateTime :=
  ds.foldl (fun a t => match a with
    | none => some t
    | some u => some (if u.toSecs < t.toSecs then t else u)) none

/-- The `date_range` section of the summary report: earliest and latest
dates and the whole-day span between them; null entries when the column
holds no actual timestamp (an all-NaT column). -/
def dateRangeDict (rs : List PhotoRecord) : SVal :=
  match minDT (rs.filterMap (fun r => r.datetime.toOption)),
        maxDT (rs.filterMap (fun r => r.datetime.toOption)) with
  | some e, some l =>
      .dict [("earliest", .dt e), ("latest", .dt l),
             ("span_days", .int (Int.fdiv (l.toSecs - e.toSecs) 86400))]
  | _, _ => .dict [("earliest", .nullv), ("latest", .nullv), ("span_days", .nullv)]

/-- Median of an integer list as a rational (mean of the two middle
elements for an even length), 0 for an empty list (unreachable under
the column guard). -/
def medianZ (vs : List ℤ) : ℚ :=
  match List.insertionSort (fun a b : ℤ => a ≤ b) vs with
  | [] => 0
  | s@(_ :: _) =>
    if s.length % 2 = 1 then ((s.getD (s.length / 2) 0 : ℤ) : ℚ)
    else (((s.getD (s.length / 2 - 1) 0 + s.getD (s.length / 2) 0 : ℤ)) : ℚ) / 2

/-- The `iso_stats` section: min, max, truncated mean and truncated
median of the ISO column. -/
def isoStatsDict (rs : List PhotoRecord) : SVal :=
  match listMin (rs.filterMap (fun r => r.iso)), listMax (rs.filterMap (fun r => r.iso)) with
  | some mn, some mx =>
      .dict [("min", .int mn), ("max", .int mx),
             ("mean", .int (pyTrunc ((((rs.filterMap (fun r => r.iso)).sum : ℤ) : ℚ) /
               ((rs.filterMap (fun r => r.iso)).length : ℚ)))),
             ("median", .int (pyTrunc (medianZ (rs.filterMap (fun r => r.iso)))))]
  | _, _ => .dict [("min", .nullv), ("max", .nullv), ("mean", .nullv), ("median", .nullv)]

/-- The first statistical mode of a rational list: the smallest value
among those of maximal multiplicity (`Series.mode()[0]`), `none` when
the list is empty. -/
def listModeQ (vs : List ℚ) : Option ℚ :=
  listMin ((valueCounts vs).filterMap (fun p =>
    if (valueCounts vs).all (fun q => q.2 ≤ p.2) then some p.1 else none))

/-- A `{min, max, most_common}` section of the summary report over a
rational column (`aperture_stats` / `focal_length_stats`); null
entries model the NaN min/max and `None` mode of an all-null column. -/
def ratStatsDict (vs : List ℚ) : SVal :=
  match listMin vs, listMax vs, listModeQ vs with
  | some mn, some mx, some mc =>
      .dict [("min", .rat mn), ("max", .rat mx), ("most_common", .rat mc)]
  | _, _, _ => .dict [("min", .nullv), ("max", .nullv), ("most_common", .nullv)]

/-- Embeds `DataProcessor.get_summary_report`: the four base counters
are always present; the `date_range`, `iso_stats`, `aperture_stats` and
`focal_length_stats` sections appear exactly when their column
exists. -/
def get_summary_report (rs : List PhotoRecord) : List (String × SVal) :=
  [("total_photos", .int (rs.length : ℤ)),
   ("unique_cameras", .int (if rs.any (fun r => r.camera_model.isSome) then
      ((rs.filterMap (fun r => r.camera_model)).dedup.length : ℤ) else 0)),
   ("unique_lenses", .int (if rs.any (fun r => r.lens.isSome) then
      ((rs.filterMap (fun r => r.lens)).dedup.length : ℤ) else 0)),
   ("photos_with_gps", .int (if rs.any (fun r => r.latitude.isSome) then
      ((rs.filter (fun r => r.latitude.isSome)).length : ℤ) else 0))]
  ++ (if hasDateCol rs then [("date_range", dateRangeDict rs)] else [])
  ++ (if rs.any (fun r => r.iso.isSome) then [("iso_stats", isoStatsDict rs)] else [])
  ++ (if rs.any (fun r => r.aperture.isPresent) then
        [("aperture_stats", ratStatsDict (rs.filterMap (fun r => r.aperture.toOption)))] else [])
  ++ (if rs.any (fun r => r.focal_length.isPresent) then
        [("focal_length_stats", ratStatsDict (rs.filterMap (fun r => r.focal_length.toOption)))] else [])

/-! ## Sample inputs used by concrete instances -/

/-- A record whose dictionary has no datetime key (as extracted from a
file exposing only a camera make). -/
def noDateRecord : PhotoRecord :=
  { filename := "a.jpg", filepath := "/photos/a.jpg", file_size := 1,
    camera_make := some "X", width := 4, height := 3, orientation := "landscape" }

/-- A record carrying a datetime. -/
def datedRecord : PhotoRecord :=
  { filename := "b.jpg", filepath := "/photos/b.jpg", file_size := 1,
    datetime := .val ⟨2023, 6, 1, 6, 0, 0⟩, width := 3, height := 4,
    orientation := "portrait" }

/-- A record with a camera model. -/
def cameraRecordA : PhotoRecord :=
  { filename := "c.jpg", filepath := "/photos/c.jpg", file_size := 1,
    camera_model := some "A", width := 1, height := 1, orientation := "landscape" }

/-- A record without a camera model. -/
def noCameraRecord : PhotoRecord :=
  { filename := "d.jpg", filepath := "/photos/d.jpg", file_size := 1,
    width := 1, height := 1, orientation := "landscape" }

/-- A file whose GPSInfo mapping has a latitude but no longitude. -/
def gpsLatOnlyFile : ImageFile :=
  { name := "g.jpg", path := "/photos/g.jpg", suffix := ".jpg", sizeBytes := 1048576,
    openOk := true,
    tags := some [("GPSInfo", .gpsMap [("GPSLatitude", .triple 40 30 0)])],
    width := 3, height := 4 }

/-- The record `extract_exif` produces from `gpsLatOnlyFile`. -/
def gpsLatOnlyRecord : PhotoRecord :=
  { filename := "g.jpg", filepath := "/photos/g.jpg",
    file_size := ((1048576 : ℕ) : ℚ) / (1024 * 1024), width := 3, height := 4,
    orientation := "portrait" }

/-! ## Theorems -/

/-- Claim C8: the time-of-day categorisation is total over integer
hours: 5–7 map to Early Morning, 8–11 to Morning, 12–16 to Afternoon,
17–19 to Golden Hour, 20–22 to Evening and every other hour to Night;
a missing hour maps to Unknown; in particular hour 6 is Early Morning
and hour 23 is Night. -/
theorem categorize_time_of_day_spec :
    (∀ h : ℤ, categorize_time_of_day (some h) =
      if 5 ≤ h ∧ h ≤ 7 then "Early Morning"
      else if 8 ≤ h ∧ h ≤ 11 then "Morning"
      else if 12 ≤ h ∧ h ≤ 16 then "Afternoon"
      else if 17 ≤ h ∧ h ≤ 19 then "Golden Hour"
      else if 20 ≤ h ∧ h ≤ 22 then "Evening"
      else "Night") ∧
    categorize_time_of_day none = "Unknown" ∧
    categorize_time_of_day (some 6) = "Early Morning" ∧
    categorize_time_of_day (some 23) = "Night" := by
  refine ⟨fun h => ?_, rfl, by decide, by decide⟩
  simp only [categorize_time_of_day]
  split_ifs <;> first | rfl | omega

/-- Claim C7: a GPS (degrees, minutes, seconds) triple converts to
`degrees + minutes/60 + seconds/3600` decimal degrees; the latitude is
negated exactly under an `"S"` reference and the longitude exactly
under a `"W"` reference; the triple (40, 30, 0) gives 40.5 under
`"N"` and -40.5 under `"S"`. -/
theorem gps_conversion_spec :
    (∀ d m s : ℚ, convert_to_degrees (.triple d m s) = some (d + m / 60 + s / 3600)) ∧
    (∀ (d m s d2 m2 s2 : ℚ) (latRef lonRef : String),
      parse_gps (.gpsMap
        [("GPSLatitude", .triple d m s), ("GPSLongitude", .triple d2 m2 s2),
         ("GPSLatitudeRef", .str latRef), ("GPSLongitudeRef", .str lonRef)]) =
      some ((if latRef = "S" then -(d + m / 60 + s / 3600) else d + m / 60 + s / 3600),
            (if lonRef = "W" then -(d2 + m2 / 60 + s2 / 3600)
             else d2 + m2 / 60 + s2 / 3600))) ∧
    parse_gps (.gpsMap
      [("GPSLatitude", .triple 40 30 0), ("GPSLongitude", .triple 40 30 0),
       ("GPSLatitudeRef", .str "N"), ("GPSLongitudeRef", .str "E")]) =
      some (40.5, 40.5) ∧
    parse_gps (.gpsMap
      [("GPSLatitude", .triple 40 30 0), ("GPSLongitude", .triple 40 30 0),
       ("GPSLatitudeRef", .str "S"), ("GPSLongitudeRef", .str "E")]) =
      some (-40.5, 40.5) := by
  refine ⟨fun d m s => rfl, fun d m s d2 m2 s2 latRef lonRef => ?_, ?_, ?_⟩
  · simp [parse_gps, dictContains, dictGet, convert_to_degrees, List.lookup]
  · simp [parse_gps, dictContains, dictGet, convert_to_degrees, List.lookup]
    norm_num
  · simp [parse_gps, dictContains, dictGet, convert_to_degrees, List.lookup]
    norm_num

/-- Claim C5: on a (numerator, denominator) pair with positive
denominator the rational parser returns the quotient rounded to one
decimal; a zero denominator yields absent rather than an error; a
scalar is cast directly to float, with a failing cast yielding
absent. -/
theorem parse_rational_spec :
    (∀ n d : ℤ, 0 < d →
      parse_rational (.pair n d) = some (round1 ((n : ℚ) / (d : ℚ)))) ∧
    (∀ n : ℤ, parse_rational (.pair n 0) = none) ∧
    (∀ (s : String) (q : ℚ) (i : Option ℤ) (b : Option Bool),
      parse_rational (.scalar s (some q) i b) = some q) ∧
    (∀ (s : String) (i : Option ℤ) (b : Option Bool),
      parse_rational (.scalar s none i b) = none) := by
  refine ⟨fun n d hd => ?_, fun n => rfl, fun s q i b => rfl, fun s i b => rfl⟩
  simp only [parse_rational]
  rw [if_neg (by omega)]

/-- Witness for claim C5 at the concrete pair (3, 2). -/
theorem parse_rational_spec_witness :
    (0 : ℤ) < 2 ∧ parse_rational (.pair 3 2) = some (round1 ((3 : ℚ) / (2 : ℚ))) :=
  ⟨by decide, parse_rational_spec.1 3 2 (by decide)⟩

/-- Claim C1 counterexample: the shutter-speed formatter truncates the
reciprocal (`int(denominator / numerator)`) rather than rounding it to
the nearest integer as the claim states; at the pair (2, 7) the code
renders "1/3" while the claimed formula renders "1/4". -/
theorem parse_shutter_speed_round_counterexample :
    parse_shutter_speed (.pair 2 7) = some "1/3" ∧
    parse_shutter_speed (.pair 2 7) ≠
      some ("1/" ++ toString (roundHalfEven ((7 : ℚ) / (2 : ℚ)))) := by
  have h1 : parse_shutter_speed (.pair 2 7) = some "1/3" := by
    simp only [parse_shutter_speed, pyTrunc]
    norm_num
    rfl
  have h2 : roundHalfEven ((7 : ℚ) / (2 : ℚ)) = 4 := by
    simp only [roundHalfEven]
    norm_num
  refine ⟨h1, ?_⟩
  rw [h1, h2]
  decide

/-- Claim C1 (amended): on a pair with `numerator ≥ denominator > 0`
the formatter renders the quotient as `"{q:.1f}s"`; with
`0 < numerator < denominator` it renders `"1/{int(d/n)}"` where the
reciprocal is truncated toward zero (not rounded to nearest); a scalar
is rendered with `str`; a zero denominator yields absent rather than
an error; and (1,500) gives "1/500", (2,1) gives "2.0s", (1,1) gives
"1.0s". -/
theorem parse_shutter_speed_spec :
    (∀ n d : ℤ, 0 < d → d ≤ n →
      parse_shutter_speed (.pair n d) = some (fmt1f ((n : ℚ) / (d : ℚ)) ++ "s")) ∧
    (∀ n d : ℤ, 0 < n → n < d →
      parse_shutter_speed (.pair n d) =
        some ("1/" ++ toString (pyTrunc ((d : ℚ) / (n : ℚ))))) ∧
    (∀ (s : String) (f : Option ℚ) (i : Option ℤ) (b : Option Bool),
      parse_shutter_speed (.scalar s f i b) = some s) ∧
    (∀ n : ℤ, 0 ≤ n → parse_shutter_speed (.pair n 0) = none) ∧
    (∀ d : ℤ, 0 < d → parse_shutter_speed (.pair 0 d) = none) ∧
    parse_shutter_speed (.pair 1 500) = some "1/500" ∧
    parse_shutter_speed (.pair 2 1) = some "2.0s" ∧
    parse_shutter_speed (.pair 1 1) = some "1.0s" := by
  refine ⟨fun n d h1 h2 => ?_, fun n d h1 h2 => ?_, fun s f i b => rfl,
    fun n h1 => ?_, fun d h1 => ?_, ?_, ?_, ?_⟩
  · simp only [parse_shutter_speed]
    rw [if_pos (by omega), if_neg (by omega)]
  · simp only [parse_shutter_speed]
    rw [if_neg (by omega), if_neg (by omega)]
  · simp only [parse_shutter_speed]
    rw [if_pos (by omega : n ≥ (0 : ℤ))]
    simp
  · simp only [parse_shutter_speed]
    rw [if_neg (by omega : ¬(0 : ℤ) ≥ d)]
    simp
  · simp only [parse_shutter_speed, pyTrunc]
    norm_num
    rfl
  · simp only [parse_shutter_speed, fmt1f, roundHalfEven]
    norm_num
    rfl
  · simp only [parse_shutter_speed, fmt1f, roundHalfEven]
    norm_num
    rfl

/-- Witness for claim C1 at the concrete pairs (4, 2), (2, 7) and
(0, 5). -/
theorem parse_shutter_speed_spec_witness :
    ((0 : ℤ) < 2 ∧ (2 : ℤ) ≤ 4 ∧
      parse_shutter_speed (.pair 4 2) = some (fmt1f ((4 : ℚ) / (2 : ℚ)) ++ "s")) ∧
    ((0 : ℤ) < 2 ∧ (2 : ℤ) < 7 ∧
      parse_shutter_speed (.pair 2 7) =
        some ("1/" ++ toString (pyTrunc ((7 : ℚ) / (2 : ℚ))))) ∧
    ((0 : ℤ) < 5 ∧ parse_shutter_speed (.pair 0 5) = none) :=
  ⟨⟨by decide, by decide, parse_shutter_speed_spec.1 4 2 (by decide) (by decide)⟩,
   ⟨by decide, by decide, parse_shutter_speed_spec.2.1 2 7 (by decide) (by decide)⟩,
   ⟨by decide, parse_shutter_speed_spec.2.2.2.2.1 5 (by decide)⟩⟩

/-- Claim C9: a scan fails exactly when the target folder does not
exist, the failure is the not-found error, and it is independent of the
folder's files (it happens before any file is processed). -/
theorem scan_folder_not_found_iff :
    ∀ (st : AnalyzerState) (p : Bool) (ps : String) (rfs gfs : List ImageFile)
      (recursive : Bool),
      ((∃ e, scan_folder st ⟨p, ps, rfs, gfs⟩ recursive = .error e) ↔ p = false) ∧
      (p = false →
        scan_folder st ⟨p, ps, rfs, gfs⟩ recursive =
          .error ("Folder not found: " ++ ps)) := by
  intro st p ps rfs gfs recursive
  cases p <;> simp [scan_folder]

/-- Witness for claim C9 at a concrete missing folder. -/
theorem scan_folder_not_found_iff_witness :
    scan_folder ⟨[]⟩ ⟨false, "/missing", [], []⟩ true =
      .error ("Folder not found: " ++ "/missing") :=
  (scan_folder_not_found_iff ⟨[]⟩ false "/missing" [] [] true).2 rfl

/-- Claim C10: the result of a scan does not depend on previously
stored records, and a successful scan stores and returns exactly the
records extracted from the files selected in that call. -/
theorem scan_folder_replaces :
    ∀ (st st' : AnalyzerState) (folder : Folder) (recursive : Bool),
      scan_folder st folder recursive = scan_folder st' folder recursive ∧
      (∀ st2 photos, scan_folder st folder recursive = .ok (st2, photos) →
        st2.photos_data = photos ∧
        photos = ((if recursive then folder.rglobFiles else folder.globFiles).filter
          (fun f => SUPPORTED_FORMATS.contains (strLower f.suffix))).filterMap
            extract_exif) := by
  intro st st' folder recursive
  refine ⟨rfl, ?_⟩
  intro st2 photos h
  by_cases hp : folder.present
  · simp only [scan_folder, if_pos hp, Except.ok.injEq] at h
    obtain ⟨h1, h2⟩ := Prod.mk.injEq .. ▸ h
    constructor
    · rw [← h1, ← h2]
    · rw [← h2]
  · simp [scan_folder, if_neg hp] at h

/-- Witness for claim C10 at a concrete folder containing one
unsupported file. -/
theorem scan_folder_replaces_witness :
    scan_folder ⟨[noDateRecord]⟩
        ⟨true, "/photos", [⟨"n.txt", "/photos/n.txt", ".txt", 1, true, none, 1, 1⟩], []⟩
        true = .ok (⟨[]⟩, []) ∧
    (⟨[]⟩ : AnalyzerState).photos_data = ([] : List PhotoRecord) := by
  have h : scan_folder ⟨[noDateRecord]⟩
      ⟨true, "/photos", [⟨"n.txt", "/photos/n.txt", ".txt", 1, true, none, 1, 1⟩], []⟩
      true = .ok (⟨[]⟩, []) := rfl
  exact ⟨h, ((scan_folder_replaces ⟨[noDateRecord]⟩ ⟨[noDateRecord]⟩
    ⟨true, "/photos", [⟨"n.txt", "/photos/n.txt", ".txt", 1, true, none, 1, 1⟩], []⟩
    true).2 ⟨[]⟩ [] h).1⟩

/-- Claim C2 counterexample: on an empty record sequence
`get_summary_report` does not return an empty mapping — it returns the
four zero-valued base counters. -/
theorem summary_report_nonempty_on_empty :
    (get_summary_report ([] : List PhotoRecord)).length = 4 ∧
    get_summary_report ([] : List PhotoRecord) ≠ [] := by
  refine ⟨rfl, fun h => ?_⟩
  have h4 : (get_summary_report ([] : List PhotoRecord)).length = 4 := rfl
  rw [h] at h4
  simp at h4

/-- Claim C2 (amended): on an empty record sequence every report method
returns an empty table or mapping, except `get_summary_report`, which
returns the mapping of the four base counters all at zero (and no
optional section); none of them fails. -/
theorem reports_on_empty_input :
    get_camera_usage [] = [] ∧
    get_lens_usage [] = [] ∧
    get_iso_distribution [] = [] ∧
    get_aperture_distribution [] = [] ∧
    get_focal_length_distribution [] = [] ∧
    (∀ freq : Freq, get_shooting_timeline [] freq = []) ∧
    get_time_of_day_distribution [] = [] ∧
    get_day_of_week_distribution [] = [] ∧
    get_orientation_stats [] = [] ∧
    get_flash_usage_stats [] = [] ∧
    get_gps_photos [] = some [] ∧
    get_summary_report [] =
      [("total_photos", .int 0), ("unique_cameras", .int 0),
       ("unique_lenses", .int 0), ("photos_with_gps", .int 0)] :=
  ⟨rfl, rfl, rfl, rfl, rfl, fun _ => rfl, rfl, rfl, rfl, rfl, rfl, rfl⟩

/-- Claim C3 counterexample: a non-empty record sequence is not enough
for the fixed 6-row and 7-row distributions — when no record carries a
datetime key the two methods return empty tables instead. -/
theorem distribution_rows_counterexample :
    ([noDateRecord] : List PhotoRecord) ≠ [] ∧
    (get_time_of_day_distribution [noDateRecord]).length = 0 ∧
    (get_day_of_week_distribution [noDateRecord]).length = 0 := by
  refine ⟨by simp, rfl, rfl⟩

/-- Claim C3 (amended): whenever at least one record carries the
datetime key (so the derived time columns exist), the time-of-day
distribution has exactly 6 rows in the fixed order and the day-of-week
distribution exactly 7, missing categories counted 0 — even for a
single record. -/
theorem distribution_row_counts (rs : List PhotoRecord)
    (h : hasDateCol rs = true) :
    (get_time_of_day_distribution rs).length = 6 ∧
    (get_time_of_day_distribution rs).map Prod.fst = time_order ∧
    (get_day_of_week_distribution rs).length = 7 ∧
    (get_day_of_week_distribution rs).map Prod.fst = day_order := by
  refine ⟨?_, ?_, ?_, ?_⟩ <;>
    simp [get_time_of_day_distribution, get_day_of_week_distribution, h,
      time_order, day_order]

/-- Witness for claim C3 at a single dated record. -/
theorem distribution_row_counts_witness :
    hasDateCol [datedRecord] = true ∧
    (get_time_of_day_distribution [datedRecord]).length = 6 ∧
    (get_day_of_week_distribution [datedRecord]).length = 7 :=
  ⟨rfl, (distribution_row_counts [datedRecord] rfl).1,
    (distribution_row_counts [datedRecord] rfl).2.2.1⟩

/-- A successful GPS parse implies the mapping carried both coordinate
keys. -/
lemma parse_gps_keys {v : TagVal} {c : ℚ × ℚ} (h : parse_gps v = some c) :
    ∃ m, v = .gpsMap m ∧ dictContains m "GPSLatitude" = true ∧
      dictContains m "GPSLongitude" = true := by
  cases v with
  | pair n d => simp [parse_gps] at h
  | scalar s f i b => simp [parse_gps] at h
  | gpsMap m =>
    simp only [parse_gps] at h
    by_cases hb : (dictContains m "GPSLatitude" && dictContains m "GPSLongitude") = true
    · have hb2 : dictContains m "GPSLatitude" = true ∧
          dictContains m "GPSLongitude" = true := by simpa using hb
      exact ⟨m, rfl, hb2.1, hb2.2⟩
    · rw [if_neg hb] at h
      exact absurd h (by simp)

/-- One tag-dispatch step either leaves the coordinate fields unchanged
or — only on a successfully parsed `GPSInfo` entry — sets both at
once. -/
lemma applyTag_latlon {acc acc' : PhotoRecord} {e : String × TagVal}
    (h : applyTag acc e = some acc') :
    (acc'.latitude = acc.latitude ∧ acc'.longitude = acc.longitude) ∨
    (e.1 = "GPSInfo" ∧ ∃ c, parse_gps e.2 = some c ∧
      acc'.latitude = some c.1 ∧ acc'.longitude = some c.2) := by
  unfold applyTag at h
  by_cases c1 : e.1 = "Make"
  · rw [if_pos c1] at h; cases h; exact Or.inl ⟨rfl, rfl⟩
  rw [if_neg c1] at h
  by_cases c2 : e.1 = "Model"
  · rw [if_pos c2] at h; cases h; exact Or.inl ⟨rfl, rfl⟩
  rw [if_neg c2] at h
  by_cases c3 : e.1 = "LensModel"
  · rw [if_pos c3] at h; cases h; exact Or.inl ⟨rfl, rfl⟩
  rw [if_neg c3] at h
  by_cases c4 : e.1 = "FocalLength"
  · rw [if_pos c4] at h; cases h; exact Or.inl ⟨rfl, rfl⟩
  rw [if_neg c4] at h
  by_cases c5 : e.1 = "FNumber"
  · rw [if_pos c5] at h; cases h; exact Or.inl ⟨rfl, rfl⟩
  rw [if_neg c5] at h
  by_cases c6 : e.1 = "ExposureTime"
  · rw [if_pos c6] at h; cases h; exact Or.inl ⟨rfl, rfl⟩
  rw [if_neg c6] at h
  by_cases c7 : e.1 = "ISOSpeedRatings"
  · rw [if_pos c7] at h
    cases hi : e.2.pyInt with
    | some i => rw [hi] at h; cases h; exact Or.inl ⟨rfl, rfl⟩
    | none => rw [hi] at h; exact absurd h (by simp)
  rw [if_neg c7] at h
  by_cases c8 : e.1 = "DateTime" ∨ e.1 = "DateTimeOriginal"
  · rw [if_pos c8] at h; cases h; exact Or.inl ⟨rfl, rfl⟩
  rw [if_neg c8] at h
  by_cases c9 : e.1 = "Flash"
  · rw [if_pos c9] at h
    cases hb : e.2.pyAnd1 with
    | some b => rw [hb] at h; cases h; exact Or.inl ⟨rfl, rfl⟩
    | none => rw [hb] at h; exact absurd h (by simp)
  rw [if_neg c9] at h
  by_cases c10 : e.1 = "GPSInfo"
  · rw [if_pos c10] at h
    cases hg : parse_gps e.2 with
    | some c => rw [hg] at h; cases h; exact Or.inr ⟨c10, c, rfl, rfl, rfl⟩
    | none => rw [hg] at h; cases h; exact Or.inl ⟨rfl, rfl⟩
  rw [if_neg c10] at h
  cases h; exact Or.inl ⟨rfl, rfl⟩

/-- The tag-dispatch fold preserves the both-or-neither coordinate
invariant, and leaves the coordinates untouched when every `GPSInfo`
mapping in the entry list lacks a coordinate key. -/
lemma foldlM_latlon :
    ∀ (entries : List (String × TagVal)) (acc r : PhotoRecord),
      List.foldlM applyTag acc entries = some r →
      ((acc.latitude.isSome = acc.longitude.isSome →
          r.latitude.isSome = r.longitude.isSome) ∧
       ((∀ m, ("GPSInfo", TagVal.gpsMap m) ∈ entries →
           ¬(dictContains m "GPSLatitude" = true ∧
             dictContains m "GPSLongitude" = true)) →
         r.latitude = acc.latitude ∧ r.longitude = acc.longitude)) := by
  intro entries
  induction entries with
  | nil =>
    intro acc r h
    simp only [List.foldlM_nil, Option.pure_def, Option.some.injEq] at h
    subst h
    exact ⟨fun x => x, fun _ => ⟨rfl, rfl⟩⟩
  | cons e t ih =>
    intro acc r h
    rw [List.foldlM_cons] at h
    cases ha : applyTag acc e with
    | none => rw [ha] at h; exact absurd h (by simp)
    | some acc1 =>
      rw [ha] at h
      have h' : List.foldlM applyTag acc1 t = some r := h
      obtain ⟨ih1, ih2⟩ := ih acc1 r h'
      rcases applyTag_latlon ha with ⟨hl, hlo⟩ | ⟨hgname, c, hpg, hl, hlo⟩
      · refine ⟨fun hinv => ih1 (by rw [hl, hlo]; exact hinv), fun hno => ?_⟩
        have h2 := ih2 (fun m hm => hno m (List.mem_cons_of_mem _ hm))
        exact ⟨h2.1.trans hl, h2.2.trans hlo⟩
      · refine ⟨fun _ => ih1 (by simp [hl, hlo]), fun hno => ?_⟩
        obtain ⟨m, hm, hc1, hc2⟩ := parse_gps_keys hpg
        exfalso
        refine hno m ?_ ⟨hc1, hc2⟩
        have he : e = ("GPSInfo", TagVal.gpsMap m) := by
          obtain ⟨e1, e2⟩ := e
          simp only at hgname hm
          rw [hgname, hm]
        rw [← he]
        exact List.mem_cons_self _ _

/-- Claim C6: in every record the extractor produces, latitude and
longitude are both present or both absent; and when every `GPSInfo`
mapping among the file's tags lacks `GPSLatitude` or `GPSLongitude`,
neither coordinate field is set. -/
theorem extract_gps_both_or_neither (f : ImageFile) (r : PhotoRecord)
    (h : extract_exif f = some r) :
    (r.latitude.isSome = r.longitude.isSome) ∧
    ((∀ m, ("GPSInfo", TagVal.gpsMap m) ∈ f.tags.getD [] →
        ¬(dictContains m "GPSLatitude" = true ∧
          dictContains m "GPSLongitude" = true)) →
      r.latitude = none ∧ r.longitude = none) := by
  unfold extract_exif at h
  by_cases ho : f.openOk = true
  case neg => rw [if_neg ho] at h; exact absurd h (by simp)
  rw [if_pos ho, Option.bind_eq_some] at h
  obtain ⟨entries, ht, h⟩ := h
  by_cases he : entries.isEmpty = true
  · rw [if_pos he] at h; exact absurd h (by simp)
  rw [if_neg he, Option.map_eq_some'] at h
  obtain ⟨r0, hf, hr⟩ := h
  subst hr
  obtain ⟨inv, untouched⟩ := foldlM_latlon entries _ r0 hf
  constructor
  · exact inv rfl
  · intro hno
    rw [ht] at hno
    exact untouched hno

/-- Witness for claim C6 at a concrete file whose GPSInfo mapping has a
latitude but no longitude: the extracted record has neither coordinate
set. -/
theorem extract_gps_both_or_neither_witness :
    extract_exif gpsLatOnlyFile = some gpsLatOnlyRecord ∧
    gpsLatOnlyRecord.latitude = none ∧ gpsLatOnlyRecord.longitude = none := by
  have h : extract_exif gpsLatOnlyFile = some gpsLatOnlyRecord := rfl
  refine ⟨h, (extract_gps_both_or_neither gpsLatOnlyFile gpsLatOnlyRecord h).2 ?_⟩
  intro m hm
  obtain rfl : m = [("GPSLatitude", GpsVal.triple 40 30 0)] := by
    simpa [gpsLatOnlyFile] using hm
  decide

/-- Half-even rounding moves a rational by at most one half. -/
lemma abs_roundHalfEven_sub_le (q : ℚ) : |(roundHalfEven q : ℚ) - q| ≤ 1 / 2 := by
  have h1 : (⌊q⌋ : ℚ) ≤ q := Int.floor_le q
  have h2 : q < ⌊q⌋ + 1 := Int.lt_floor_add_one q
  unfold roundHalfEven
  split_ifs with ha hb hc
  · rw [abs_le]
    constructor <;> linarith
  · push_cast
    rw [abs_le]
    constructor <;> linarith
  · rw [not_lt] at ha hb
    rw [abs_le]
    constructor <;> linarith
  · rw [not_lt] at ha hb
    push_cast
    rw [abs_le]
    constructor <;> linarith

/-- Rounding to one decimal moves a rational by at most 1/20. -/
lemma abs_round1_sub_le (q : ℚ) : |round1 q - q| ≤ 1 / 20 := by
  have h := abs_roundHalfEven_sub_le (q * 10)
  have heq : round1 q - q = ((roundHalfEven (q * 10) : ℚ) - q * 10) / 10 := by
    rw [round1]; ring
  rw [heq, abs_div, show |(10 : ℚ)| = 10 from by norm_num]
  linarith

/-- Rounding every element of a list to one decimal moves the sum by at
most 1/20 per element. -/
lemma abs_sum_map_round1_sub_le (l : List ℚ) :
    |(l.map round1).sum - l.sum| ≤ (l.length : ℚ) * (1 / 20) := by
  induction l with
  | nil => simp
  | cons a t ih =>
    simp only [List.map_cons, List.sum_cons, List.length_cons]
    have h1 := abs_round1_sub_le a
    calc |round1 a + (t.map round1).sum - (a + t.sum)|
        = |(round1 a - a) + ((t.map round1).sum - t.sum)| := by ring_nf
      _ ≤ |round1 a - a| + |(t.map round1).sum - t.sum| := abs_add _ _
      _ ≤ 1 / 20 + (t.length : ℚ) * (1 / 20) := add_le_add h1 ih
      _ = ((t.length + 1 : ℕ) : ℚ) * (1 / 20) := by push_cast; ring

/-- A `filterMap` whose function succeeds on every element preserves the
length. -/
lemma length_filterMap_of_isSome {β γ : Type} (g : β → Option γ) :
    ∀ l : List β, (∀ x ∈ l, (g x).isSome = true) →
      (l.filterMap g).length = l.length := by
  intro l
  induction l with
  | nil => intro _; rfl
  | cons a t ih =>
    intro hall
    have ha := hall a (List.mem_cons_self a t)
    cases hg : g a with
    | none => rw [hg] at ha; simp at ha
    | some b =>
      rw [List.filterMap_cons_some hg, List.length_cons, List.length_cons,
        ih (fun x hx => hall x (List.mem_cons_of_mem a hx))]

/-- The counts in a `valueCounts` table sum to the number of counted
values. -/
lemma sum_valueCounts (vals : List String) :
    ((valueCounts vals).map (fun p => ((p.2 : ℕ) : ℚ))).sum = (vals.length : ℚ) := by
  unfold valueCounts
  rw [List.map_map]
  have h := List.sum_map_count_dedup_eq_length vals
  calc (vals.dedup.map ((fun p : String × ℕ => ((p.2 : ℕ) : ℚ)) ∘
          fun v => (v, vals.count v))).sum
      = (vals.dedup.map (fun v => ((vals.count v : ℕ) : ℚ))).sum := rfl
    _ = ((vals.dedup.map (fun v => vals.count v)).sum : ℚ) := by
        rw [Nat.cast_list_sum, List.map_map]; rfl
    _ = (vals.length : ℚ) := by rw [h]

/-- Summing a per-row rescaling over a table. -/
lemma sum_map_div_mul (l : List (String × ℕ)) (N : ℚ) :
    (l.map (fun p => ((p.2 : ℕ) : ℚ) / N * 100)).sum =
      (l.map (fun p => ((p.2 : ℕ) : ℚ))).sum / N * 100 := by
  induction l with
  | nil => simp
  | cons a t ih =>
    simp only [List.map_cons, List.sum_cons, ih]
    ring

/-- The percentage column produced from a sorted `valueCounts` table
over `vals` sums to 100 within 1/20 per row, provided the denominator
equals the number of counted values. -/
lemma usage_sum_bound (vals : List String) (N : ℚ) (hN : N ≠ 0)
    (hlen : (vals.length : ℚ) = N) :
    |(((List.insertionSort (fun a b : String × ℕ => b.2 ≤ a.2) (valueCounts vals)).map
        (fun p => (p.1, p.2, round1 ((p.2 : ℚ) / N * 100)))).map
      (fun row => row.2.2)).sum - 100| ≤
    (((List.insertionSort (fun a b : String × ℕ => b.2 ≤ a.2) (valueCounts vals)).map
        (fun p => (p.1, p.2, round1 ((p.2 : ℚ) / N * 100)))).length : ℚ) * (1 / 20) := by
  have hperm : List.Perm
      (List.insertionSort (fun a b : String × ℕ => b.2 ≤ a.2) (valueCounts vals))
      (valueCounts vals) := List.perm_insertionSort _ _
  have hgsum : ((List.insertionSort (fun a b : String × ℕ => b.2 ≤ a.2)
      (valueCounts vals)).map (fun p : String × ℕ => (p.2 : ℚ) / N * 100)).sum
      = 100 := by
    rw [(hperm.map _).sum_eq, sum_map_div_mul, sum_valueCounts, hlen, div_self hN,
      one_mul]
  have key := abs_sum_map_round1_sub_le
    ((List.insertionSort (fun a b : String × ℕ => b.2 ≤ a.2)
      (valueCounts vals)).map (fun p : String × ℕ => (p.2 : ℚ) / N * 100))
  rw [hgsum, List.map_map, List.length_map] at key
  simpa [List.map_map, Function.comp_def, List.length_map] using key

/-- Claim C4 counterexample: the percentage denominator is the total
record count, so when a record lacks `camera_model` the returned
percentages do not sum to 100 up to rounding tolerance: with one "A"
record and one model-less record the single row carries 50.0. -/
theorem camera_usage_sum_counterexample :
    ([cameraRecordA, noCameraRecord] : List PhotoRecord) ≠ [] ∧
    ¬ |((get_camera_usage [cameraRecordA, noCameraRecord]).map
          (fun row => row.2.2)).sum - 100| ≤
        ((get_camera_usage [cameraRecordA, noCameraRecord]).length : ℚ) * (1 / 20) := by
  have hval : get_camera_usage [cameraRecordA, noCameraRecord] =
      [("A", 1, round1 (((1 : ℕ) : ℚ) / ((2 : ℕ) : ℚ) * 100))] := rfl
  have h50 : round1 (((1 : ℕ) : ℚ) / ((2 : ℕ) : ℚ) * 100) = 50 := by
    simp only [round1, roundHalfEven]
    norm_num
  refine ⟨by simp, ?_⟩
  rw [hval, h50]
  simp only [List.map_cons, List.map_nil, List.sum_cons, List.sum_nil,
    List.length_cons, List.length_nil]
  norm_num

/-- Claim C4 (amended): every row of the camera-usage table carries the
percentage `round(count / total * 100, 1)` where the denominator is the
total record count; and when every record carries a camera model the
percentages sum to 100 within 0.05 per row. -/
theorem camera_usage_percentages (rs : List PhotoRecord) (hne : rs ≠ []) :
    (∀ row ∈ get_camera_usage rs,
        row.2.2 = round1 ((row.2.1 : ℚ) / (rs.length : ℚ) * 100)) ∧
    ((∀ r ∈ rs, r.camera_model.isSome = true) →
      |((get_camera_usage rs).map (fun row => row.2.2)).sum - 100| ≤
        ((get_camera_usage rs).length : ℚ) * (1 / 20)) := by
  constructor
  · intro row hrow
    unfold get_camera_usage at hrow
    split_ifs at hrow with hg
    · obtain ⟨p, hp, hrweq⟩ := List.mem_map.mp hrow
      rw [← hrweq]
    · simp at hrow
  · intro hall
    have hguard : rs.any (fun r => r.camera_model.isSome) = true := by
      rcases rs with _ | ⟨r0, t⟩
      · exact absurd rfl hne
      · simp [List.any_cons, hall r0 (List.mem_cons_self r0 t)]
    have hN : ((rs.length : ℕ) : ℚ) ≠ 0 := by
      simpa [List.length_eq_zero] using hne
    have hvallen : (((rs.filterMap (fun r => r.camera_model)).length : ℕ) : ℚ) =
        ((rs.length : ℕ) : ℚ) := by
      rw [length_filterMap_of_isSome _ rs hall]
    unfold get_camera_usage
    rw [if_pos hguard]
    exact usage_sum_bound _ _ hN hvallen

/-- Witness for claim C4 at a single record with a camera model: the
lone percentage is 100.0 and the sum property holds. -/
theorem camera_usage_percentages_witness :
    ([cameraRecordA] : List PhotoRecord) ≠ [] ∧
    |((get_camera_usage [cameraRecordA]).map (fun row => row.2.2)).sum - 100| ≤
      ((get_camera_usage [cameraRecordA]).length : ℚ) * (1 / 20) :=
  ⟨by simp, (camera_usage_percentages [cameraRecordA] (by simp)).2
    (by intro r hr; rw [List.mem_singleton] at hr; subst hr; rfl)⟩

end ExifDash
